import Mathlib

set_option maxRecDepth 100000

/-!
Shallow embedding of `src/WEBRTC_GSTREAMER.cpp` (WebRTC negotiation client
against the OpenAI realtime API).

The program's effectful collaborators (libcurl, nlohmann::json's parser,
the GStreamer webrtcbin engine, the process environment) are modelled as
explicit inputs: each call site receives the outcome the collaborator would
deliver (curl init success, transport result, bytes accumulated by the write
callback, the parse outcome of the received body, the engine's data-channel
handle, the engine-generated offer text).  The orchestration logic itself —
branching, sequencing, string construction — is translated statement by
statement from the source.  Engine calls and HTTP side effects are recorded
as events in a trace.
-/

mutual
/-- JSON values as nlohmann::json represents them: objects are ordered maps
(`std::map<std::string, ...>`), so fields are kept sorted by key.
`JFields` is the field list (mutual with `JVal` to keep recursion structural). -/
inductive JVal : Type where
  | null : JVal
  | bool (b : Bool) : JVal
  | num (n : Int) : JVal
  | str (s : String) : JVal
  | obj (fields : JFields) : JVal

inductive JFields : Type where
  | nil : JFields
  | cons (key : String) (val : JVal) (rest : JFields) : JFields
end

/-- `std::less<std::string>`: lexicographic byte comparison (all keys in this
program are ASCII, so code points and bytes coincide). -/
def charListLt : List Char → List Char → Bool
  | [], [] => false
  | [], _ :: _ => true
  | _ :: _, [] => false
  | a :: as, b :: bs =>
    if a.toNat < b.toNat then true
    else if b.toNat < a.toNat then false
    else charListLt as bs

def strLt (a b : String) : Bool := charListLt a.toList b.toList

/-- Insertion into a sorted field list, as `std::map` insertion behaves
(keys ordered by `std::less`; inserting an existing key overwrites). -/
def insertField (k : String) (v : JVal) : JFields → JFields
  | .nil => .cons k v .nil
  | .cons k2 v2 rest =>
    if strLt k k2 then .cons k v (.cons k2 v2 rest)
    else if k = k2 then .cons k2 v rest
    else .cons k2 v2 (insertField k v rest)
termination_by structural fs => fs

/-- Building an nlohmann object from an initializer list: fields are inserted
one by one into the ordered map, so source order is irrelevant to the result. -/
def mkObj (l : List (String × JVal)) : JVal :=
  .obj (l.foldl (fun acc p => insertField p.1 p.2 acc) .nil)

/-- `std::map` lookup on a field list. -/
def findField (k : String) : JFields → Option JVal
  | .nil => none
  | .cons k2 v rest => if k2 = k then some v else findField k rest
termination_by structural fs => fs

/-- `json::operator[]` / field access on a JSON value (none when absent or
when the value is not an object). -/
def getField (j : JVal) (k : String) : Option JVal :=
  match j with
  | .obj fs => findField k fs
  | _ => none

/-- `json::contains(key)`: true only for objects holding the key. -/
def containsKey (j : JVal) (k : String) : Bool :=
  (getField j k).isSome

/-- JSON string escaping as `nlohmann::json::dump` performs it for the
characters occurring in this program's strings (quote and backslash; all
strings in the program are printable ASCII without control characters). -/
def escapeChar (c : Char) : String :=
  if c = '\"' then "\\\"" else if c = '\\' then "\\\\" else String.singleton c

def escapeString (s : String) : String :=
  String.join (s.toList.map escapeChar)

mutual
/-- `nlohmann::json::dump()` (compact form: no spaces, object keys in the
map's sorted order). -/
def dump : JVal → String
  | .null => "null"
  | .bool true => "true"
  | .bool false => "false"
  | .num n => toString n
  | .str s => "\"" ++ escapeString s ++ "\""
  | .obj fs => "\x7b" ++ dumpFields fs ++ "\x7d"
termination_by structural j => j

def dumpFields : JFields → String
  | .nil => ""
  | .cons k v .nil => "\"" ++ escapeString k ++ "\":" ++ dump v
  | .cons k v (.cons k2 v2 rest) =>
      "\"" ++ escapeString k ++ "\":" ++ dump v ++ "," ++
        dumpFields (.cons k2 v2 rest)
termination_by structural fs => fs
end

/-- One libcurl easy-handle session as `post_offer_and_get_answer` uses it:
whether `curl_easy_init` succeeds, whether `curl_easy_perform` returns
`CURLE_OK`, and the bytes the write callback appended to `readBuffer` during
the perform call (on a transport failure these are the bytes received before
the failure, possibly none). -/
structure CurlCall : Type where
  initOk : Bool
  performOk : Bool
  received : String

/-- One libcurl session as `create_ephemeral_key` uses it: as `CurlCall`,
plus the outcome of `nlohmann::json::parse` on the received body
(`none` = the parse threw). -/
structure FetchCall : Type where
  initOk : Bool
  performOk : Bool
  received : String
  parsed : Option JVal

/-- Observable HTTP-client side effects: header-list construction and the
network request attempt. -/
inductive NetEv : Type where
  | header (h : String) : NetEv
  | request (url : String) (body : String) : NetEv
deriving DecidableEq

/-- `post_offer_and_get_answer` (source lines 42–74): posts the offer SDP
with the ephemeral key as bearer token and returns `readBuffer`.  The source
returns `readBuffer` on both branches of the `CURLE_OK` test — nothing resets
the buffer on a transport error. -/
def post_offer_and_get_answer (offer_sdp ephemeral_key : String)
    (c : CurlCall) : String × List NetEv :=
  if !c.initOk then ("", [])
  else
    (c.received,
     [NetEv.header ("Authorization: Bearer " ++ ephemeral_key),
      NetEv.header "Content-Type: application/sdp",
      NetEv.header "Accept: application/sdp",
      NetEv.request "https://api.openai.com/v1/realtime?model=gpt-4o-realtime-preview"
        offer_sdp])

/-- `create_ephemeral_key` (source lines 87–132).  `env` is the process
environment (`std::getenv`).  The result `none` models the undefined
behaviour at line 94: `std::string api_key = std::getenv("OPENAI_API_KEY");`
constructs a `std::string` from the null pointer when the variable is absent
(no null check exists in the program).  Otherwise the result is `some` of the
returned key: the `client_secret.value` string when the transport succeeded,
the body parsed, and the nested field holds a string; the empty string in
every other case (init failure, transport failure, parse exception, missing
field, or non-string field — the assignment to `std::string` throws and the
catch leaves `ephemeral_key` empty). -/
def create_ephemeral_key (env : String → Option String)
    (c : FetchCall) : Option String × List NetEv :=
  if !c.initOk then (some "", [])
  else
    match env "OPENAI_API_KEY" with
    | none => (none, [])
    | some api_key =>
      let tr := [NetEv.header ("Authorization: Bearer " ++ api_key),
                 NetEv.header "Content-Type: application/json",
                 NetEv.request "https://api.openai.com/v1/realtime/sessions"
                   "\x7b\"model\": \"gpt-4o-realtime-preview\"\x7d"]
      if c.performOk then
        match c.parsed with
        | none => (some "", tr)
        | some j =>
          match getField j "client_secret" with
          | none => (some "", tr)
          | some cs =>
            match getField cs "value" with
            | some (.str v) => (some v, tr)
            | some _ => (some "", tr)
            | none => (some "", tr)
      else (some "", tr)

/-- The `session.update` JSON object built in `on_data_channel_open`
(source lines 140–150), with the initializer list transcribed in source
order; `mkObj` models nlohmann's ordered-map construction. -/
def session_update_event : JVal :=
  mkObj [("type", .str "session.update"),
         ("session", mkObj
            [("input_audio_format", .str "pcm24"),
             ("input_text", .bool true),
             ("output_audio_format", .str "pcm24"),
             ("output_text", .bool true),
             ("voice_activity_detection", mkObj [("mode", .str "advanced")]),
             ("instructions", .str "You are connected from C++ GStreamer client with advanced VAD enabled (PCM24).")])]

/-- The bytes `event.dump()` actually produces: compact JSON with keys in
nlohmann's sorted map order. -/
def session_update_wire : String :=
  "\x7b\"session\":\x7b\"input_audio_format\":\"pcm24\",\"input_text\":true,\"instructions\":\"You are connected from C++ GStreamer client with advanced VAD enabled (PCM24).\",\"output_audio_format\":\"pcm24\",\"output_text\":true,\"voice_activity_detection\":\x7b\"mode\":\"advanced\"\x7d\x7d,\"type\":\"session.update\"\x7d"

/-- Modelled from the spec: the data-channel wire template exactly as §6 of
the spec writes it (`type` first, `instructions` last inside `session`),
for comparison with the serialization the code produces. -/
def spec_template_wire : String :=
  "\x7b\"type\":\"session.update\",\"session\":\x7b\"input_audio_format\":\"pcm24\",\"input_text\":true,\"output_audio_format\":\"pcm24\",\"output_text\":true,\"voice_activity_detection\":\x7b\"mode\":\"advanced\"\x7d,\"instructions\":\"You are connected from C++ GStreamer client with advanced VAD enabled (PCM24).\"\x7d\x7d"

example : dump session_update_event = session_update_wire := by decide

/-- The collaborator outcomes one `on-negotiation-needed` delivery can
observe: whether `create-data-channel` returned a handle, the offer text the
engine generates, the process environment, the curl sessions of the
credential fetch and of the answer exchange, and the success of
`gst_sdp_message_parse_buffer` on the answer body (whose return value the
source discards at lines 224–225). -/
structure NegEnv : Type where
  dataChannelOk : Bool
  offer_sdp : String
  env : String → Option String
  fetch : FetchCall
  exchange : CurlCall
  answerParses : Bool

/-- Engine calls and orchestrator side effects, in delivery order. -/
inductive Ev : Type where
  | createDataChannel : Ev
  | registerOpenCallback : Ev
  | logChannelWarning : Ev
  | createOffer : Ev
  | setLocal (sdp : String) : Ev
  | credFetchCall : Ev
  | credFetchRet (key : String) : Ev
  | exchangeCall (offer key : String) : Ev
  | exchangeRet (answer : String) : Ev
  | setRemote (answer : String) : Ev
  | envCrash : Ev
  | sendSessionUpdate (msg : String) : Ev
deriving DecidableEq

/-- The offer-completion promise callback (source lines 199–236): applies the
local description, fetches the ephemeral key, posts the offer — note the
source calls `post_offer_and_get_answer` unconditionally, with whatever key
`create_ephemeral_key` returned — and applies the remote description exactly
when the answer body is non-empty.  `envCrash` is the undefined behaviour
`create_ephemeral_key` hits when `OPENAI_API_KEY` is absent. -/
def offer_completion (g : NegEnv) : List Ev :=
  Ev.setLocal g.offer_sdp ::
  Ev.credFetchCall ::
  match (create_ephemeral_key g.env g.fetch).1 with
  | none => [Ev.envCrash]
  | some key =>
    let answer := (post_offer_and_get_answer g.offer_sdp key g.exchange).1
    Ev.credFetchRet key ::
    Ev.exchangeCall g.offer_sdp key ::
    Ev.exchangeRet answer ::
    if answer = "" then [] else [Ev.setRemote answer]

/-- `on_negotiation_needed` (source lines 169–241): requests the data
channel, registers the open callback on success or logs the warning on a
null handle, then requests the offer; the promise callback's events follow
(the engine delivers the completion on the same serial loop). -/
def on_negotiation_needed (g : NegEnv) : List Ev :=
  Ev.createDataChannel ::
  (if g.dataChannelOk then [Ev.registerOpenCallback] else [Ev.logChannelWarning])
  ++ Ev.createOffer :: offer_completion g

/-- `on_data_channel_open` (source lines 137–156): each invocation sends the
serialized `session.update` message once; the handler keeps no state, so
nothing prevents a second delivery from sending again. -/
def on_data_channel_open : List Ev :=
  [Ev.sendSessionUpdate (dump session_update_event)]

/-- A whole attempt followed by `n` deliveries of the channel's `on-open`
event.  Open events can only be delivered when a channel exists and the
callback was registered (source line 180), hence the guard. -/
def negotiation_with_opens (g : NegEnv) (n : Nat) : List Ev :=
  on_negotiation_needed g ++
    (if g.dataChannelOk then (List.replicate n on_data_channel_open).flatten else [])

/-- Terminal condition of an attempt, read off the code's behaviour: the
attempt reaches the applied-answer state exactly when `set-remote-description`
was emitted; `crashed` marks the `OPENAI_API_KEY` undefined behaviour. -/
inductive Phase : Type where
  | answerApplied : Phase
  | failed : Phase
  | crashed : Phase
deriving DecidableEq

def isSetRemote : Ev → Bool
  | .setRemote _ => true
  | _ => false

def isSetLocal : Ev → Bool
  | .setLocal _ => true
  | _ => false

def isCreateOffer : Ev → Bool
  | .createOffer => true
  | _ => false

def isCreateDataChannel : Ev → Bool
  | .createDataChannel => true
  | _ => false

def isExchangeCall : Ev → Bool
  | .exchangeCall _ _ => true
  | _ => false

def isCredFetchRet : Ev → Bool
  | .credFetchRet _ => true
  | _ => false

def isSendSessionUpdate : Ev → Bool
  | .sendSessionUpdate _ => true
  | _ => false

def isEnvCrash : Ev → Bool
  | .envCrash => true
  | _ => false

def attempt_outcome (g : NegEnv) : Phase :=
  if (on_negotiation_needed g).any isEnvCrash then .crashed
  else if (on_negotiation_needed g).any isSetRemote then .answerApplied
  else .failed

/-- `precedes p q l`: no `q`-event occurs strictly before the first
`p`-event of `l` (true when neither kind occurs). -/
def precedes (p q : Ev → Bool) : List Ev → Bool
  | [] => true
  | e :: rest => if p e then true else if q e then false else precedes p q rest

/-- Shape of the attempt trace when the credential fetch returns a key
(possibly empty): the sequencing of the source is linear, with the single
branch on answer emptiness at its end. -/
theorem trace_shape (g : NegEnv) (k : String)
    (hk : (create_ephemeral_key g.env g.fetch).1 = some k) :
    on_negotiation_needed g =
      Ev.createDataChannel ::
      (if g.dataChannelOk then [Ev.registerOpenCallback] else [Ev.logChannelWarning])
      ++ [Ev.createOffer, Ev.setLocal g.offer_sdp, Ev.credFetchCall,
          Ev.credFetchRet k, Ev.exchangeCall g.offer_sdp k,
          Ev.exchangeRet ((post_offer_and_get_answer g.offer_sdp k g.exchange).1)]
      ++ (if (post_offer_and_get_answer g.offer_sdp k g.exchange).1 = "" then []
          else [Ev.setRemote ((post_offer_and_get_answer g.offer_sdp k g.exchange).1)]) := by
  unfold on_negotiation_needed offer_completion
  rw [hk]
  by_cases hdc : g.dataChannelOk <;>
    by_cases ha : (post_offer_and_get_answer g.offer_sdp k g.exchange).1 = "" <;>
    simp [hdc, ha]

/-- Shape of the attempt trace when the environment variable is absent:
the run dies inside `create_ephemeral_key` right after `set-local`. -/
theorem trace_shape_crash (g : NegEnv)
    (hk : (create_ephemeral_key g.env g.fetch).1 = none) :
    on_negotiation_needed g =
      Ev.createDataChannel ::
      (if g.dataChannelOk then [Ev.registerOpenCallback] else [Ev.logChannelWarning])
      ++ [Ev.createOffer, Ev.setLocal g.offer_sdp, Ev.credFetchCall, Ev.envCrash] := by
  unfold on_negotiation_needed offer_completion
  rw [hk]

/-- C1: in every offer-completion callback, set-local-description precedes
set-remote-description, the credential fetch completes before the exchange
POST starts, exactly one offer is generated, and at most one answer is
applied. -/
theorem c1_engine_call_order (g : NegEnv) :
    (on_negotiation_needed g).countP isCreateOffer = 1 ∧
    (on_negotiation_needed g).countP isSetRemote ≤ 1 ∧
    precedes isSetLocal isSetRemote (on_negotiation_needed g) = true ∧
    precedes isCredFetchRet isExchangeCall (on_negotiation_needed g) = true := by
  rcases hk : (create_ephemeral_key g.env g.fetch).1 with _ | k
  · rw [trace_shape_crash g hk]
    by_cases hdc : g.dataChannelOk <;>
      simp [hdc, precedes, isCreateOffer, isSetRemote, isSetLocal, isCredFetchRet,
        isExchangeCall, isCreateDataChannel, List.countP_cons, List.countP_append]
  · rw [trace_shape g k hk]
    by_cases hdc : g.dataChannelOk <;>
      by_cases ha : (post_offer_and_get_answer g.offer_sdp k g.exchange).1 = "" <;>
      simp [hdc, ha, precedes, isCreateOffer, isSetRemote, isSetLocal, isCredFetchRet,
        isExchangeCall, List.countP_cons, List.countP_append]


/-- Concrete attempt for the C2 scenario: curl init succeeds but the
credential transport fails, so `create_ephemeral_key` returns the empty
key; the exchange transport succeeds with an empty body. -/
def c2env : NegEnv where
  dataChannelOk := true
  offer_sdp := "v=0 c2-offer"
  env := fun k => if k = "OPENAI_API_KEY" then some "sk-test" else none
  fetch := { initOk := true, performOk := false, received := "", parsed := none }
  exchange := { initOk := true, performOk := true, received := "" }
  answerParses := true

/-- C2 fails on the code: at `c2env` the credential fetch returns the empty
key, yet the exchange client is still invoked (the source calls
`post_offer_and_get_answer` unconditionally at line 216, with no emptiness
check on the key). -/
theorem c2_counterexample :
    (create_ephemeral_key c2env.env c2env.fetch).1 = some "" ∧
    (on_negotiation_needed c2env).countP isExchangeCall = 1 ∧
    Ev.exchangeCall "v=0 c2-offer" "" ∈ on_negotiation_needed c2env := by
  decide

/-- C2 amended: when the credential fetch returns an empty credential, the
orchestrator still invokes the exchange client, exactly once, passing the
empty credential as the bearer token. -/
theorem c2_amended_exchange_still_called (g : NegEnv)
    (h : (create_ephemeral_key g.env g.fetch).1 = some "") :
    (on_negotiation_needed g).countP isExchangeCall = 1 ∧
    Ev.exchangeCall g.offer_sdp "" ∈ on_negotiation_needed g := by
  rw [trace_shape g "" h]
  by_cases hdc : g.dataChannelOk <;>
    by_cases ha : (post_offer_and_get_answer g.offer_sdp "" g.exchange).1 = "" <;>
    simp [hdc, ha, isExchangeCall, List.countP_cons, List.countP_append]

theorem c2_amended_witness :
    (on_negotiation_needed c2env).countP isExchangeCall = 1 ∧
    Ev.exchangeCall c2env.offer_sdp "" ∈ on_negotiation_needed c2env :=
  c2_amended_exchange_still_called c2env (by decide)

/-- C3: with the long-lived key present, `create_ephemeral_key` returns
exactly the `client_secret.value` string of a parsed successful response,
and the empty string when the field is missing, the body does not parse, or
the transport fails. -/
theorem c3_credential_extraction (env : String → Option String) (c : FetchCall)
    (k : String) (henv : env "OPENAI_API_KEY" = some k) (hinit : c.initOk = true) :
    (∀ j s, c.performOk = true → c.parsed = some j →
        (getField j "client_secret").bind (fun cs => getField cs "value") =
          some (JVal.str s) →
        (create_ephemeral_key env c).1 = some s) ∧
    (∀ j, c.performOk = true → c.parsed = some j →
        (getField j "client_secret").bind (fun cs => getField cs "value") = none →
        (create_ephemeral_key env c).1 = some "") ∧
    (c.performOk = true → c.parsed = none → (create_ephemeral_key env c).1 = some "") ∧
    (c.performOk = false → (create_ephemeral_key env c).1 = some "") := by
  refine ⟨?_, ?_, ?_, ?_⟩
  · intro j s hp hj hfield
    rcases hcs : getField j "client_secret" with _ | cs <;> rw [hcs] at hfield
    · simp at hfield
    · have hv : getField cs "value" = some (JVal.str s) := hfield
      simp [create_ephemeral_key, hinit, henv, hp, hj, hcs, hv]
  · intro j hp hj hfield
    rcases hcs : getField j "client_secret" with _ | cs <;> rw [hcs] at hfield
    · simp [create_ephemeral_key, hinit, henv, hp, hj, hcs]
    · have hv : getField cs "value" = none := hfield
      simp [create_ephemeral_key, hinit, henv, hp, hj, hcs, hv]
  · intro hp hj
    simp [create_ephemeral_key, hinit, henv, hp, hj]
  · intro hp
    simp [create_ephemeral_key, hinit, henv, hp]

/-- A successful credential-fetch response body as parsed JSON. -/
def c3json : JVal :=
  .obj (.cons "client_secret" (.obj (.cons "value" (.str "ek-c3-key") .nil)) .nil)

def c3fetch : FetchCall where
  initOk := true
  performOk := true
  received := "\x7b\"client_secret\":\x7b\"value\":\"ek-c3-key\"\x7d\x7d"
  parsed := some c3json

def c3procenv : String → Option String :=
  fun k => if k = "OPENAI_API_KEY" then some "sk-longlived" else none

theorem c3_witness :
    (create_ephemeral_key c3procenv c3fetch).1 = some "ek-c3-key" :=
  (c3_credential_extraction c3procenv c3fetch "sk-longlived" (by decide) rfl).1
    c3json "ek-c3-key" rfl rfl rfl

/-- A successful credential response for the C4 fixture. -/
def c4json : JVal :=
  .obj (.cons "client_secret" (.obj (.cons "value" (.str "ek-c4-key") .nil)) .nil)

/-- Concrete attempt for C4: everything succeeds except that the exchange
returns a non-empty body that is not parseable as a session description. -/
def c4env : NegEnv where
  dataChannelOk := true
  offer_sdp := "v=0 c4-offer"
  env := fun k => if k = "OPENAI_API_KEY" then some "sk-test" else none
  fetch := { initOk := true, performOk := true,
             received := "\x7b\"client_secret\":\x7b\"value\":\"ek-c4-key\"\x7d\x7d",
             parsed := some c4json }
  exchange := { initOk := true, performOk := true, received := "THIS IS NOT AN SDP ANSWER" }
  answerParses := false

/-- C4 fails on the code for malformed non-empty bodies: the source checks
only `!answer_sdp.empty()` (line 221) and discards the return value of
`gst_sdp_message_parse_buffer` (lines 224–225), so at `c4env` the malformed
body is still applied via set-remote-description. -/
theorem c4_counterexample :
    c4env.answerParses = false ∧
    Ev.setRemote "THIS IS NOT AN SDP ANSWER" ∈ on_negotiation_needed c4env ∧
    (on_negotiation_needed c4env).countP isSetRemote = 1 := by
  decide

/-- C4 amended: only emptiness of the answer body is checked — an empty body
leads to Failed with no set-remote-description, while every non-empty body,
malformed or not, is applied via set-remote-description. -/
theorem c4_amended_only_empty_guard (g : NegEnv) (k : String)
    (hk : (create_ephemeral_key g.env g.fetch).1 = some k) :
    ((post_offer_and_get_answer g.offer_sdp k g.exchange).1 = "" →
        (on_negotiation_needed g).countP isSetRemote = 0 ∧
        attempt_outcome g = Phase.failed) ∧
    ((post_offer_and_get_answer g.offer_sdp k g.exchange).1 ≠ "" →
        (on_negotiation_needed g).countP isSetRemote = 1) := by
  refine ⟨fun ha => ⟨?_, ?_⟩, fun ha => ?_⟩
  · rw [trace_shape g k hk]
    by_cases hdc : g.dataChannelOk <;>
      simp [hdc, ha, isSetRemote, List.countP_cons, List.countP_append]
  · unfold attempt_outcome
    rw [trace_shape g k hk]
    by_cases hdc : g.dataChannelOk <;>
      simp [hdc, ha, isSetRemote, isEnvCrash]
  · rw [trace_shape g k hk]
    by_cases hdc : g.dataChannelOk <;>
      simp [hdc, ha, isSetRemote, List.countP_cons, List.countP_append]

theorem c4_amended_witness :
    (on_negotiation_needed c4env).countP isSetRemote = 1 :=
  (c4_amended_only_empty_guard c4env "ek-c4-key" (by decide)).2 (by decide)

/-- C5: an empty string from the exchange client leaves the attempt Failed
and set-remote-description is never emitted. -/
theorem c5_empty_exchange_fails (g : NegEnv) (k : String)
    (hk : (create_ephemeral_key g.env g.fetch).1 = some k)
    (hex : (post_offer_and_get_answer g.offer_sdp k g.exchange).1 = "") :
    attempt_outcome g = Phase.failed ∧
    (on_negotiation_needed g).countP isSetRemote = 0 := by
  constructor
  · unfold attempt_outcome
    rw [trace_shape g k hk]
    by_cases hdc : g.dataChannelOk <;> simp [hdc, hex, isSetRemote, isEnvCrash]
  · rw [trace_shape g k hk]
    by_cases hdc : g.dataChannelOk <;>
      simp [hdc, hex, isSetRemote, List.countP_cons, List.countP_append]

/-- A successful credential response for the C5 fixture. -/
def c5json : JVal :=
  .obj (.cons "client_secret" (.obj (.cons "value" (.str "ek-c5-key") .nil)) .nil)

/-- Concrete attempt for C5: the credential fetch succeeds but the exchange
transport fails with nothing received, so the client returns the empty
string. -/
def c5env : NegEnv where
  dataChannelOk := true
  offer_sdp := "v=0 c5-offer"
  env := fun k => if k = "OPENAI_API_KEY" then some "sk-test" else none
  fetch := { initOk := true, performOk := true,
             received := "\x7b\"client_secret\":\x7b\"value\":\"ek-c5-key\"\x7d\x7d",
             parsed := some c5json }
  exchange := { initOk := true, performOk := false, received := "" }
  answerParses := true

theorem c5_witness :
    attempt_outcome c5env = Phase.failed ∧
    (on_negotiation_needed c5env).countP isSetRemote = 0 :=
  c5_empty_exchange_fails c5env "ek-c5-key" (by decide) (by decide)

/-- An exchange transport failure that broke off after part of the answer
body had already been delivered to the write callback. -/
def c6curl : CurlCall where
  initOk := true
  performOk := false
  received := "v=0 partial answer bytes"

/-- C6 fails on the code: on a transport failure `readBuffer` is returned
unchanged (nothing clears it in the error branch, lines 66–73), so bytes
received before the failure are returned instead of the empty string. -/
theorem c6_counterexample :
    c6curl.performOk = false ∧
    (post_offer_and_get_answer "v=0 c6-offer" "ek-c6" c6curl).1 =
      "v=0 partial answer bytes" := by
  decide

/-- C6 amended: whenever the curl handle initializes, the function returns
the accumulated response buffer verbatim regardless of the transport
outcome; on a transport failure this is the empty string only when nothing
was received before the failure. -/
theorem c6_amended_buffer_returned (offer key : String) (c : CurlCall)
    (h : c.initOk = true) :
    (post_offer_and_get_answer offer key c).1 = c.received := by
  simp [post_offer_and_get_answer, h]

def c6okcurl : CurlCall where
  initOk := true
  performOk := true
  received := "v=0 c6-answer"

theorem c6_amended_witness :
    (post_offer_and_get_answer "v=0 c6-offer" "ek-c6" c6okcurl).1 = "v=0 c6-answer" :=
  c6_amended_buffer_returned "v=0 c6-offer" "ek-c6" c6okcurl rfl

/-- The serialized `session.update` message is the sorted-key compact wire
string (what `event.dump()` produces). -/
theorem session_dump_eq : dump session_update_event = session_update_wire := by
  decide

/-- No attempt trace itself contains a session-update send: sends happen only
in the channel-open callback. -/
theorem no_send_in_attempt (g : NegEnv) :
    (on_negotiation_needed g).countP isSendSessionUpdate = 0 := by
  rcases hk : (create_ephemeral_key g.env g.fetch).1 with _ | k
  · rw [trace_shape_crash g hk]
    by_cases hdc : g.dataChannelOk <;>
      simp [hdc, isSendSessionUpdate, List.countP_cons, List.countP_append]
  · rw [trace_shape g k hk]
    by_cases hdc : g.dataChannelOk <;>
      by_cases ha : (post_offer_and_get_answer g.offer_sdp k g.exchange).1 = "" <;>
      simp [hdc, ha, isSendSessionUpdate, List.countP_cons, List.countP_append]

/-- `n` deliveries of the open event send `n` messages. -/
theorem send_count_replicate (n : Nat) :
    ((List.replicate n on_data_channel_open).flatten.countP isSendSessionUpdate) = n := by
  induction n with
  | zero => simp
  | succ m ih =>
    rw [List.replicate_succ, List.flatten_cons, List.countP_append, ih]
    simp [on_data_channel_open, isSendSessionUpdate, List.countP_cons]
    omega

/-- A successful credential response for the C7 fixture. -/
def c7json : JVal :=
  .obj (.cons "client_secret" (.obj (.cons "value" (.str "ek-c7-key") .nil)) .nil)

/-- Concrete fully successful attempt for C7. -/
def c7env : NegEnv where
  dataChannelOk := true
  offer_sdp := "v=0 c7-offer"
  env := fun k => if k = "OPENAI_API_KEY" then some "sk-test" else none
  fetch := { initOk := true, performOk := true,
             received := "\x7b\"client_secret\":\x7b\"value\":\"ek-c7-key\"\x7d\x7d",
             parsed := some c7json }
  exchange := { initOk := true, performOk := true, received := "v=0 c7-answer" }
  answerParses := true

/-- C7 fails on the code twice: `on_data_channel_open` keeps no state, so two
open events after the applied answer produce two sends, not one; and the
bytes sent are nlohmann's sorted-key serialization, which differs from the
spec's template ordering (`type` first, `instructions` last). -/
theorem c7_counterexample :
    attempt_outcome c7env = Phase.answerApplied ∧
    (negotiation_with_opens c7env 2).countP isSendSessionUpdate = 2 ∧
    dump session_update_event ≠ spec_template_wire := by
  decide

/-- C7 amended: each channel-open event triggers exactly one
session-configuration send — `n` open events yield `n` sends, so repeated
opens do duplicate — and every sent message's bytes equal the fixed
sorted-key serialization `session_update_wire`. -/
theorem c7_amended_one_send_per_open (g : NegEnv) (n : Nat)
    (h : g.dataChannelOk = true) :
    (negotiation_with_opens g n).countP isSendSessionUpdate = n ∧
    ∀ m, Ev.sendSessionUpdate m ∈ negotiation_with_opens g n →
      m = session_update_wire := by
  constructor
  · unfold negotiation_with_opens
    rw [List.countP_append, no_send_in_attempt g]
    simp [h, send_count_replicate n]
  · intro m hm
    unfold negotiation_with_opens at hm
    rw [List.mem_append] at hm
    rcases hm with hm | hm
    · have h0 := no_send_in_attempt g
      rw [List.countP_eq_zero] at h0
      have := h0 _ hm
      simp [isSendSessionUpdate] at this
    · rw [if_pos h] at hm
      rw [List.mem_flatten] at hm
      obtain ⟨l, hl, hml⟩ := hm
      have := List.eq_of_mem_replicate hl
      subst this
      simp only [on_data_channel_open, List.mem_singleton] at hml
      have : m = dump session_update_event := by
        injection hml
      rw [this, session_dump_eq]

theorem c7_amended_witness :
    (negotiation_with_opens c7env 1).countP isSendSessionUpdate = 1 :=
  (c7_amended_one_send_per_open c7env 1 (by decide)).1

/-- C8: data-channel creation is always requested before the offer; when the
handle is null the attempt only logs the warning, proceeds, and — given a
key and a non-empty answer — still reaches the applied-answer state, while
no session-configuration message can ever be sent (there is no channel to
deliver open events). -/
theorem c8_channel_failure_nonfatal (g : NegEnv) (n : Nat) :
    precedes isCreateDataChannel isCreateOffer (on_negotiation_needed g) = true ∧
    (g.dataChannelOk = false →
      Ev.logChannelWarning ∈ on_negotiation_needed g ∧
      (negotiation_with_opens g n).countP isSendSessionUpdate = 0 ∧
      ∀ k, (create_ephemeral_key g.env g.fetch).1 = some k →
        (post_offer_and_get_answer g.offer_sdp k g.exchange).1 ≠ "" →
        attempt_outcome g = Phase.answerApplied) := by
  refine ⟨?_, fun hdc => ⟨?_, ?_, ?_⟩⟩
  · unfold on_negotiation_needed
    simp [precedes, isCreateDataChannel]
  · rcases hk : (create_ephemeral_key g.env g.fetch).1 with _ | k
    · rw [trace_shape_crash g hk]; simp [hdc]
    · rw [trace_shape g k hk]; simp [hdc]
  · unfold negotiation_with_opens
    rw [List.countP_append, no_send_in_attempt g]
    simp [hdc]
  · intro k hk ha
    unfold attempt_outcome
    rw [trace_shape g k hk]
    simp [hdc, ha, isSetRemote, isEnvCrash]

/-- A successful credential response for the C8 fixture. -/
def c8json : JVal :=
  .obj (.cons "client_secret" (.obj (.cons "value" (.str "ek-c8-key") .nil)) .nil)

/-- Concrete attempt for C8: the data channel could not be created but the
rest of the negotiation succeeds. -/
def c8env : NegEnv where
  dataChannelOk := false
  offer_sdp := "v=0 c8-offer"
  env := fun k => if k = "OPENAI_API_KEY" then some "sk-test" else none
  fetch := { initOk := true, performOk := true,
             received := "\x7b\"client_secret\":\x7b\"value\":\"ek-c8-key\"\x7d\x7d",
             parsed := some c8json }
  exchange := { initOk := true, performOk := true, received := "v=0 c8-answer" }
  answerParses := true

theorem c8_witness :
    Ev.logChannelWarning ∈ on_negotiation_needed c8env ∧
    (negotiation_with_opens c8env 3).countP isSendSessionUpdate = 0 ∧
    attempt_outcome c8env = Phase.answerApplied := by
  obtain ⟨-, h⟩ := c8_channel_failure_nonfatal c8env 3
  obtain ⟨h1, h2, h3⟩ := h (by decide)
  exact ⟨h1, h2, h3 "ek-c8-key" (by decide) (by decide)⟩

/-- The environment for the C9 run: `OPENAI_API_KEY` absent. -/
def c9env : NegEnv where
  dataChannelOk := true
  offer_sdp := "v=0 c9-offer"
  env := fun _ => none
  fetch := { initOk := true, performOk := true, received := "", parsed := none }
  exchange := { initOk := true, performOk := true, received := "" }
  answerParses := true

/-- C9: the spec is right and the code wrong.  `main` (lines 312–341)
performs no environment check, and with `OPENAI_API_KEY` absent the line
`std::string api_key = std::getenv("OPENAI_API_KEY");` (line 94) constructs
a `std::string` from a null pointer — undefined behaviour deep inside the
fetch call, modelled as the `none` result / `crashed` outcome — instead of a
configuration error surfaced before negotiation begins. -/
theorem c9_missing_env_is_undefined_behaviour :
    (create_ephemeral_key c9env.env c9env.fetch).1 = none ∧
    attempt_outcome c9env = Phase.crashed := by
  decide

/-- C10: when `curl_easy_init` fails, both HTTP helpers return the empty
string at once, with an empty side-effect trace: no header is built and no
request is attempted (in `create_ephemeral_key` not even the environment is
read — the null check precedes it). -/
theorem c10_init_failure_no_side_effects (offer key : String)
    (env : String → Option String) (c : CurlCall) (f : FetchCall)
    (hc : c.initOk = false) (hf : f.initOk = false) :
    post_offer_and_get_answer offer key c = ("", []) ∧
    create_ephemeral_key env f = (some "", []) := by
  constructor <;> simp [post_offer_and_get_answer, create_ephemeral_key, hc, hf]

theorem c10_witness :
    post_offer_and_get_answer "v=0 c10-offer" "ek-c10"
        { initOk := false, performOk := true, received := "ignored" } = ("", []) ∧
    create_ephemeral_key (fun _ => some "sk-test")
        { initOk := false, performOk := true, received := "ignored", parsed := none } =
      (some "", []) :=
  c10_init_failure_no_side_effects "v=0 c10-offer" "ek-c10" (fun _ => some "sk-test")
    { initOk := false, performOk := true, received := "ignored" }
    { initOk := false, performOk := true, received := "ignored", parsed := none }
    rfl rfl
